import Mathlib

/-!
Shallow embedding of `ingestr/src/google_ads/__init__.py`: the `Report` data
model with its spec-string parser, the built-in report catalog, the
`google_ads` source orchestration and the `daily_report` row-extraction
generator, together with proofs about them.

Python strings are modelled as Lean `String`; the handful of Python string
operations the module uses (`str.split`, `str.strip`, `str.count`,
`str.startswith`, `str.replace`) are embedded below with Python semantics.
Exceptions (`ValueError`, `UnboundLocalError`, `TypeError`) are modelled with
`Except String`.
-/

/-- Python `str.isspace` characters relevant to `str.strip()`
(space, tab, newline, carriage return, vertical tab, form feed). -/
def isPySpace (c : Char) : Bool :=
  c = ' ' || c = '\t' || c = '\n' || c = '\r' || c = '\x0b' || c = '\x0c'

/-- Python `s.strip()`: drop leading and trailing whitespace. -/
def pyStrip (s : String) : String :=
  ⟨((s.data.dropWhile isPySpace).reverse.dropWhile isPySpace).reverse⟩

/-- Python `s.split(sep)` for a one-character separator, on the character
list: every occurrence of the separator splits, empty fields are kept, and
the empty input gives `[[]]` (Python: `"".split(",") == [""]`). -/
def splitChar (c : Char) : List Char → List (List Char)
  | [] => [[]]
  | x :: xs =>
    let r := splitChar c xs
    if x = c then
      [] :: r
    else
      match r with
      | [] => [[x]]
      | y :: ys => (x :: y) :: ys

/-- Python `s.split(sep)` for a one-character separator, on strings. -/
def pySplit (c : Char) (s : String) : List String :=
  (splitChar c s.data).map (fun l => ⟨l⟩)

/-- Python `s.startswith(p)`. -/
def pyStartsWith (s p : String) : Bool :=
  p.data.isPrefixOf s.data

/-- Python `k.replace(".", "_")`: the single-character case is a
character-wise map. -/
def dotToUnderscore (s : String) : String :=
  ⟨s.data.map (fun c => if c = '.' then '_' else c)⟩

/-- The report data model: one API resource plus ordered dimension, metric
and segment field-path lists (`class Report`). -/
structure Report where
  resource : String := ""
  dimensions : List String := []
  metrics : List String := []
  segments : List String := []
deriving Repr, DecidableEq

namespace Report

/-- `Report.primary_keys`: dimensions then segments, each with `.`
replaced by `_`. -/
def primary_keys (r : Report) : List String :=
  (r.dimensions ++ r.segments).map dotToUnderscore

/-- `Report._parse_dimension` (written without the leading underscore):
strip, then reject entries with no `.` or with a `segments.` prefix. -/
def parse_dimension (dim : String) : Except String String :=
  let dim := pyStrip dim
  if (dim.data.count '.') = 0 then
    Except.error "Invalid dimension format. Expected {resource}.{field}"
  else if pyStartsWith dim "segments." then
    Except.error "Invalid dimension format. Segments are not allowed in dimensions."
  else
    Except.ok dim

/-- `Report._parse_metric` (written without the leading underscore): strip,
then add the `metrics.` namespace when it is absent (the source strips a
second time inside the f-string, which is a no-op on a stripped string). -/
def parse_metric (metric : String) : String :=
  let metric := pyStrip metric
  if pyStartsWith metric "metrics." then metric
  else "metrics." ++ pyStrip metric

/-- The list comprehension `[d for d in map(cls._parse_dimension, ...)]`:
parse each dimension in order, propagating the first `ValueError`. -/
def parseDims : List String → Except String (List String)
  | [] => Except.ok []
  | d :: rest =>
    match parse_dimension d with
    | Except.error e => Except.error e
    | Except.ok x =>
      match parseDims rest with
      | Except.error e => Except.error e
      | Except.ok xs => Except.ok (x :: xs)

/-- `Report.from_spec`: parse `custom:{resource}:{dimensions}:{metrics}`.
A colon count other than 3 is a `ValueError`; otherwise the string splits
into exactly four fields (the second branch of the match is unreachable),
segments are fixed to `["segments.date"]`, dimensions are validated and
metrics are namespace-prefixed. -/
def from_spec (spec : String) : Except String Report :=
  if (spec.data.count ':') ≠ 3 then
    Except.error "Invalid report specification format. Expected custom:{resource}:{dimensions}:{metrics}"
  else
    match pySplit ':' spec with
    | [_, resource, dimensions, metrics] =>
      match parseDims (pySplit ',' dimensions) with
      | Except.error e => Except.error e
      | Except.ok dims =>
        Except.ok
          { resource := resource
            dimensions := dims
            metrics := (pySplit ',' metrics).map parse_metric
            segments := ["segments.date"] }
    | _ => Except.error "unreachable: a string with 3 separators splits into 4 fields"

end Report

/-- Numeric value of a digit character. -/
def digitVal (c : Char) : Nat := c.toNat - 48

/-- Gregorian leap-year rule (as used by Python `datetime.date`). -/
def isLeap (y : Nat) : Bool :=
  (y % 4 = 0 && y % 100 ≠ 0) || y % 400 = 0

/-- Days in a month (as used by Python `datetime.date`). -/
def daysInMonth (y m : Nat) : Nat :=
  if m = 2 then (if isLeap y then 29 else 28)
  else if m = 4 || m = 6 || m = 9 || m = 11 then 30
  else 31

/-- The `%m` directive of `strptime`: the regex alternatives
`1[0-2] | 0[1-9] | [1-9]`, in preference order, each with the remaining
input. -/
def monthAlts (l : List Char) : List (Nat × List Char) :=
  (match l with
   | '1' :: c :: r => if '0' ≤ c ∧ c ≤ '2' then [(10 + digitVal c, r)] else []
   | _ => []) ++
  (match l with
   | '0' :: c :: r => if '1' ≤ c ∧ c ≤ '9' then [(digitVal c, r)] else []
   | _ => []) ++
  (match l with
   | c :: r => if '1' ≤ c ∧ c ≤ '9' then [(digitVal c, r)] else []
   | _ => [])

/-- The `%d` directive of `strptime`: the regex alternatives
`3[01] | [12][0-9] | 0[1-9] | [1-9]`, in preference order. -/
def dayAlts (l : List Char) : List (Nat × List Char) :=
  (match l with
   | '3' :: c :: r => if c = '0' ∨ c = '1' then [(30 + digitVal c, r)] else []
   | _ => []) ++
  (match l with
   | c :: c2 :: r =>
     if (c = '1' ∨ c = '2') ∧ c2.isDigit then [(10 * digitVal c + digitVal c2, r)] else []
   | _ => []) ++
  (match l with
   | '0' :: c :: r => if '1' ≤ c ∧ c ≤ '9' then [(digitVal c, r)] else []
   | _ => []) ++
  (match l with
   | c :: r => if '1' ≤ c ∧ c ≤ '9' then [(digitVal c, r)] else []
   | _ => [])

/-- Match `%m-%d` with regex backtracking: the first month alternative whose
continuation (a literal `-` and then some day alternative) matches wins, and
the day takes its first alternative since nothing follows it in the
pattern. -/
def matchMD (l : List Char) : Option (Nat × Nat × List Char) :=
  (monthAlts l).findSome? (fun mr =>
    match mr.2 with
    | '-' :: r2 =>
      match dayAlts r2 with
      | [] => none
      | (d, r3) :: _ => some (mr.1, d, r3)
    | _ => none)

/-- Python `datetime.strptime(s, "%Y-%m-%d")`: four year digits, a literal
`-`, month and day per `matchMD`; the whole string must be consumed
("unconverted data remains" otherwise) and the resulting date must be a
valid `datetime.date` (year at least 1, day within the month). `none`
models the `ValueError`. -/
def strptimeYMD (s : String) : Option (Nat × Nat × Nat) :=
  match s.data with
  | y1 :: y2 :: y3 :: y4 :: '-' :: rest =>
    if y1.isDigit ∧ y2.isDigit ∧ y3.isDigit ∧ y4.isDigit then
      match matchMD rest with
      | some (m, d, leftover) =>
        if leftover = [] then
          let y := 1000 * digitVal y1 + 100 * digitVal y2 + 10 * digitVal y3 + digitVal y4
          if 1 ≤ y ∧ d ≤ daysInMonth y m then some (y, m, d) else none
        else none
      | none => none
    else none
  | _ => none

/-- A Python value as it appears in a (possibly nested) row mapping:
strings, integers, `datetime` values, and nested dicts. -/
inductive PyVal where
  | vstr (s : String)
  | vint (n : Int)
  | vdate (y m d : Nat)
  | vobj (fields : List (String × PyVal))
deriving Repr

/-- A flat record: an insertion-ordered mapping from key to value. -/
abbrev Record := List (String × PyVal)

mutual

/-- One key/value pair of `flatten_json.flatten` (separator `_`): a nested
dict contributes its leaves under `key_childkey...`; a scalar is a leaf. -/
def flattenVal (key : String) : PyVal → Record
  | PyVal.vobj fs => flattenFields key fs
  | PyVal.vstr s => [(key, PyVal.vstr s)]
  | PyVal.vint n => [(key, PyVal.vint n)]
  | PyVal.vdate y m d => [(key, PyVal.vdate y m d)]

/-- Leaves of a nested dict, keys joined to the prefix with `_`. -/
def flattenFields (key : String) : List (String × PyVal) → Record
  | [] => []
  | (k, v) :: rest => flattenVal (key ++ "_" ++ k) v ++ flattenFields key rest

end

/-- `flatten_json.flatten` on a top-level dict: underscore-joined keys,
one entry per leaf, in dict insertion order. -/
def pyFlatten : List (String × PyVal) → Record
  | [] => []
  | (k, v) :: rest => flattenVal k v ++ pyFlatten rest

/-- Python `d[k]` lookup / `k in d` membership on the ordered mapping. -/
def lookupKey (k : String) (d : Record) : Option PyVal :=
  match d with
  | [] => none
  | kv :: rest => if kv.1 = k then some kv.2 else lookupKey k rest

/-- Python `d[k] = v` on an existing key: the value is replaced in place,
the key keeps its position. -/
def setKey (k : String) (v : PyVal) (d : Record) : Record :=
  d.map (fun kv => if kv.1 = k then (k, v) else kv)

/-- The incremental date cursor handed in by the host framework: the last
seen value and an optional end boundary. Values are kept as the strings
the predicate builder renders. -/
structure Cursor where
  last_value : String
  end_value : Option String
deriving Repr

/-- Modelled from the spec: the `date_predicate` helper lives in the
`.predicates` module, which is not among the provided sources. Per the
spec it produces "field greater-or-equal last_value" when no upper bound is
known, and "field between last_value inclusive and end_value exclusive"
when an end is known. The claims below only constrain the point at which
`daily_report` applies it, not its internal rendering. -/
def date_predicate (field : String) (lastValue : String) (endValue : Option String) : String :=
  match endValue with
  | none => field ++ " >= " ++ lastValue
  | some e => field ++ " >= " ++ lastValue ++ " AND " ++ field ++ " < " ++ e

/-- The `allowed_keys` set of `daily_report`: every declared field path
(dimensions, then metrics, then segments) with `.` replaced by `_`. Only
membership in this set is ever used, so the list models the Python set. -/
def allowed_keys (report : Report) : List String :=
  (report.dimensions ++ report.metrics ++ report.segments).map dotToUnderscore

/-- The `segments_date` fix-up of `daily_report`: when the flattened row
has a `segments_date` key, its string value is re-parsed with
`strptime(..., "%Y-%m-%d")` in place; a non-matching value propagates the
`ValueError`, a non-string value the `TypeError` of `strptime`. -/
def fixSegmentsDate (data : Record) : Except String Record :=
  match lookupKey "segments_date" data with
  | none => Except.ok data
  | some (PyVal.vstr s) =>
    match strptimeYMD s with
    | some ymd => Except.ok (setKey "segments_date" (PyVal.vdate ymd.1 ymd.2.1 ymd.2.2) data)
    | none => Except.error "ValueError: time data does not match format %Y-%m-%d"
  | some _ => Except.error "TypeError: strptime() argument 1 must be str"

/-- The per-row body of `daily_report`: flatten the row dict, fix up
`segments_date`, then keep exactly the entries whose key is declared. -/
def processRow (allowed : List String) (row : List (String × PyVal)) : Except String Record :=
  match fixSegmentsDate (pyFlatten row) with
  | Except.error e => Except.error e
  | Except.ok data => Except.ok (data.filter (fun kv => allowed.contains kv.1))

/-- The inner `for row in batch.results` loop: one output record per row,
in stream order; the first exception aborts the extraction. -/
def processRows (allowed : List String) : List (List (String × PyVal)) → Except String (List Record)
  | [] => Except.ok []
  | row :: rest =>
    match processRow allowed row with
    | Except.error e => Except.error e
    | Except.ok r =>
      match processRows allowed rest with
      | Except.error e => Except.error e
      | Except.ok rs => Except.ok (r :: rs)

/-- The outer `for batch in stream` loop. -/
def processBatches (allowed : List String) :
    List (List (List (String × PyVal))) → Except String (List Record)
  | [] => Except.ok []
  | b :: bs =>
    match processRows allowed b with
    | Except.error e => Except.error e
    | Except.ok rs =>
      match processBatches allowed bs with
      | Except.error e => Except.error e
      | Except.ok rss => Except.ok (rs ++ rss)

/-- What one invocation of `daily_report` produces: the query string it
sends, and the outcome of extracting the streamed batches. -/
structure DailyOutput where
  query : String
  records : Except String (List Record)

/-- `daily_report`: build the query (the f-string layout reproduced
verbatim), derive the allowed key set, and extract the streamed batches.
The API service itself is external; its reply is the `stream` argument. -/
def daily_report (report : Report) (date : Cursor)
    (stream : List (List (List (String × PyVal)))) : DailyOutput :=
  let fields := report.dimensions ++ report.metrics ++ report.segments
  { query :=
      "\n        SELECT\n            " ++ String.intercalate ", " fields ++
      "\n        FROM\n            " ++ report.resource ++
      "\n        WHERE\n            " ++
      date_predicate "segments.date" date.last_value date.end_value ++ "\n    "
    records := processBatches (allowed_keys report) stream }

/-- The built-in catalog, as an insertion-ordered mapping (Python dicts
preserve insertion order). Omitted fields default to the empty list, as in
the Python constructor. -/
def BUILTIN_REPORTS : List (String × Report) := [
  ("account_report_daily",
   { resource := "campaign"
     dimensions := ["customer.id"]
     metrics := [
       "metrics.active_view_impressions",
       "metrics.active_view_measurability",
       "metrics.active_view_measurable_cost_micros",
       "metrics.active_view_measurable_impressions",
       "metrics.active_view_viewability",
       "metrics.clicks",
       "metrics.conversions",
       "metrics.conversions_value",
       "metrics.cost_micros",
       "metrics.impressions",
       "metrics.interactions",
       "metrics.interaction_event_types",
       "metrics.view_through_conversions"]
     segments := ["segments.date", "segments.ad_network_type", "segments.device"] }),
  ("campaign_report_daily",
   { resource := "campaign"
     dimensions := ["campaign.id", "customer.id"]
     metrics := [
       "metrics.active_view_impressions",
       "metrics.active_view_measurability",
       "metrics.active_view_measurable_cost_micros",
       "metrics.active_view_measurable_impressions",
       "metrics.active_view_viewability",
       "metrics.clicks",
       "metrics.conversions",
       "metrics.conversions_value",
       "metrics.cost_micros",
       "metrics.impressions",
       "metrics.interactions",
       "metrics.interaction_event_types",
       "metrics.view_through_conversions"]
     segments := ["segments.date", "segments.ad_network_type", "segments.device"] }),
  ("ad_group_report_daily",
   { resource := "ad_group"
     dimensions := ["ad_group.id", "customer.id", "campaign.id"]
     metrics := [
       "metrics.active_view_impressions",
       "metrics.active_view_measurability",
       "metrics.active_view_measurable_cost_micros",
       "metrics.active_view_measurable_impressions",
       "metrics.active_view_viewability",
       "metrics.clicks",
       "metrics.conversions",
       "metrics.conversions_value",
       "metrics.cost_micros",
       "metrics.impressions",
       "metrics.interactions",
       "metrics.interaction_event_types",
       "metrics.view_through_conversions"]
     segments := ["segments.date", "segments.ad_network_type", "segments.device"] }),
  ("ad_report_daily",
   { resource := "ad_group_ad"
     dimensions := ["ad_group.id", "ad_group_ad.ad.id", "customer.id", "campaign.id"]
     segments := ["segments.date", "segments.ad_network_type", "segments.device"]
     metrics := [
       "metrics.active_view_impressions",
       "metrics.active_view_measurability",
       "metrics.active_view_measurable_cost_micros",
       "metrics.active_view_measurable_impressions",
       "metrics.active_view_viewability",
       "metrics.clicks",
       "metrics.conversions",
       "metrics.conversions_value",
       "metrics.cost_micros",
       "metrics.impressions",
       "metrics.interactions",
       "metrics.interaction_event_types",
       "metrics.view_through_conversions"] }),
  ("audience_report_daily",
   { resource := "ad_group_audience_view"
     dimensions := ["ad_group.id", "customer.id", "campaign.id", "ad_group_criterion.criterion_id"]
     segments := ["segments.date", "segments.ad_network_type", "segments.device"]
     metrics := [
       "metrics.active_view_impressions",
       "metrics.active_view_measurability",
       "metrics.active_view_measurable_cost_micros",
       "metrics.active_view_measurable_impressions",
       "metrics.active_view_viewability",
       "metrics.clicks",
       "metrics.conversions",
       "metrics.conversions_value",
       "metrics.cost_micros",
       "metrics.impressions",
       "metrics.interactions",
       "metrics.interaction_event_types",
       "metrics.view_through_conversions"] }),
  ("keyword_report_daily",
   { resource := "ad_group_audience_view"
     dimensions := ["ad_group.id", "customer.id", "campaign.id", "ad_group_criterion.criterion_id"]
     segments := ["segments.date", "segments.ad_network_type", "segments.device"]
     metrics := [
       "metrics.active_view_impressions",
       "metrics.active_view_measurability",
       "metrics.active_view_measurable_cost_micros",
       "metrics.active_view_measurable_impressions",
       "metrics.active_view_viewability",
       "metrics.clicks",
       "metrics.conversions",
       "metrics.conversions_value",
       "metrics.cost_micros",
       "metrics.impressions",
       "metrics.interactions",
       "metrics.interaction_event_types",
       "metrics.view_through_conversions"] }),
  ("click_report_daily",
   { resource := "click_view"
     dimensions := ["click_view.gclid", "customer.id", "ad_group.id", "campaign.id"]
     metrics := ["metrics.clicks"] }),
  ("landing_page_report_daily",
   { resource := "landing_page_view"
     dimensions := [
       "landing_page_view.expanded_final_url",
       "landing_page_view.resource_name",
       "customer.id",
       "ad_group.id",
       "campaign.id"]
     metrics := [
       "metrics.average_cpc",
       "metrics.clicks",
       "metrics.cost_micros",
       "metrics.ctr",
       "metrics.impressions",
       "metrics.mobile_friendly_clicks_percentage",
       "metrics.speed_score",
       "metrics.valid_accelerated_mobile_pages_clicks_percentage"] }),
  ("search_keyword_report_daily",
   { resource := "keyword_view"
     dimensions := [
       "customer.id",
       "ad_group.id",
       "campaign.id",
       "keyword_view.resource_name",
       "ad_group_criterion.criterion_id"]
     metrics := [
       "metrics.absolute_top_impression_percentage",
       "metrics.average_cpc",
       "metrics.average_cpm",
       "metrics.clicks",
       "metrics.conversions_from_interactions_rate",
       "metrics.conversions_value",
       "metrics.cost_micros",
       "metrics.ctr",
       "metrics.impressions",
       "metrics.top_impression_percentage",
       "metrics.view_through_conversions"] }),
  ("search_term_report_daily",
   { resource := "search_term_view"
     dimensions := [
       "customer.id",
       "ad_group.id",
       "campaign.id",
       "search_term_view.resource_name",
       "search_term_view.search_term",
       "search_term_view.status"]
     segments := ["segments.search_term_match_type"]
     metrics := [
       "metrics.absolute_top_impression_percentage",
       "metrics.average_cpc",
       "metrics.clicks",
       "metrics.conversions",
       "metrics.conversions_from_interactions_rate",
       "metrics.conversions_from_interactions_value_per_interaction",
       "metrics.cost_micros",
       "metrics.ctr",
       "metrics.impressions",
       "metrics.top_impression_percentage",
       "metrics.view_through_conversions"] }),
  ("lead_form_submission_data_report_daily",
   { resource := "lead_form_submission_data"
     dimensions := [
       "lead_form_submission_data.gclid",
       "lead_form_submission_data.submission_date_time",
       "lead_form_submission_data.lead_form_submission_fields",
       "lead_form_submission_data.custom_lead_form_submission_fields",
       "lead_form_submission_data.resource_name",
       "customer.id",
       "ad_group_ad.ad.id",
       "ad_group.id",
       "campaign.id"] }),
  ("local_services_lead_report_daily",
   { resource := "local_services_lead"
     dimensions := [
       "customer.id",
       "local_services_lead.creation_date_time",
       "local_services_lead.contact_details",
       "local_services_lead.credit_details.credit_state",
       "local_services_lead.credit_details.credit_state_last_update_date_time",
       "local_services_lead.lead_charged",
       "local_services_lead.lead_status",
       "local_services_lead.lead_type",
       "local_services_lead.locale",
       "local_services_lead.note.description",
       "local_services_lead.note.edit_date_time",
       "local_services_lead.service_id"] }),
  ("local_services_lead_conversations_report_daily",
   { resource := "local_services_lead_conversation"
     dimensions := [
       "customer.id",
       "local_services_lead_conversation.event_date_time",
       "local_services_lead_conversation.conversation_channel",
       "local_services_lead_conversation.local_services_lead_id",
       "local_services_lead_conversation.message_details_attachment_urls",
       "local_services_lead_conversation.message_details_text",
       "local_services_lead_conversation.participant_type",
       "local_services_lead_conversation.phone_call_details_call_duration_millis",
       "local_services_lead_conversation.phone_call_details_call_recording_url"] })]

/-- One `dlt.resource` registration yielded by `google_ads`: its name, its
write disposition, its primary key, and the `Report` argument the bound
`daily_report` generator will extract. -/
structure ResourceReg where
  name : String
  write_disposition : String
  primary_key : List String
  report : Report
deriving Repr, DecidableEq

/-- `google_ads`: with a custom `report_spec`, the spec is parsed (a bad
spec propagates the `ValueError`) and the resource is then called with the
local variable `report` — which at that point has not been bound yet (the
`for report_name, report in ...` loop below it is what binds it), so
Python raises `UnboundLocalError` before anything is yielded. Without a
custom spec, one registration per built-in catalog entry is yielded, in
catalog order. -/
def google_ads (report_spec : Option String) : Except String (List ResourceReg) :=
  match report_spec with
  | some spec =>
    match Report.from_spec spec with
    | Except.error e => Except.error e
    | Except.ok _custom_report =>
      Except.error "UnboundLocalError: local variable 'report' referenced before assignment"
  | none =>
    Except.ok (BUILTIN_REPORTS.map (fun nr =>
      { name := nr.1
        write_disposition := "merge"
        primary_key := nr.2.primary_keys
        report := nr.2 }))

/-- A dimension entry that `Report.parse_dimension` accepts: after
stripping it contains a `.` and does not start with `segments.`. -/
def dimOk (d : String) : Prop :=
  (pyStrip d).data.count '.' ≠ 0 ∧ pyStartsWith (pyStrip d) "segments." = false

instance (d : String) : Decidable (dimOk d) := by
  unfold dimOk
  infer_instance

theorem splitChar_ne_nil (c : Char) (l : List Char) : splitChar c l ≠ [] := by
  induction l with
  | nil => simp [splitChar]
  | cons x xs ih =>
    simp only [splitChar]
    by_cases hx : x = c
    · simp [hx]
    · cases h : splitChar c xs with
      | nil => simp [hx, h]
      | cons y ys => simp [hx, h]

theorem splitChar_length (c : Char) (l : List Char) :
    (splitChar c l).length = l.count c + 1 := by
  induction l with
  | nil => simp [splitChar]
  | cons x xs ih =>
    simp only [splitChar, List.count_cons]
    by_cases hx : x = c
    · simp [hx, ih]
    · cases h : splitChar c xs with
      | nil => exact absurd h (splitChar_ne_nil c xs)
      | cons y ys =>
        rw [h] at ih
        simp only [List.length_cons] at ih
        simp [hx, h, ih]

theorem splitChar_not_mem {c : Char} {l : List Char} (h : c ∉ l) : splitChar c l = [l] := by
  induction l with
  | nil => rfl
  | cons x xs ih =>
    have hx : ¬(x = c) := fun he => h (he ▸ List.mem_cons_self x xs)
    have hxs : c ∉ xs := fun hm => h (List.mem_cons_of_mem _ hm)
    simp [splitChar, hx, ih hxs]

theorem splitChar_append {c : Char} {a : List Char} (b : List Char) (h : c ∉ a) :
    splitChar c (a ++ c :: b) = a :: splitChar c b := by
  induction a with
  | nil => simp [splitChar]
  | cons x xs ih =>
    have hx : ¬(x = c) := fun he => h (he ▸ List.mem_cons_self x xs)
    have hxs : c ∉ xs := fun hm => h (List.mem_cons_of_mem _ hm)
    simp [splitChar, hx, ih hxs]

theorem strData_append (s t : String) : (s ++ t).data = s.data ++ t.data := rfl

theorem pySplit_ne_nil (c : Char) (s : String) : pySplit c s ≠ [] := by
  unfold pySplit
  intro h
  exact splitChar_ne_nil c s.data (List.map_eq_nil_iff.mp h)

theorem pySplit_length (c : Char) (s : String) :
    (pySplit c s).length = s.data.count c + 1 := by
  unfold pySplit
  rw [List.length_map, splitChar_length]

theorem concat4_data (p r d m : String) :
    (p ++ ":" ++ r ++ ":" ++ d ++ ":" ++ m).data
      = p.data ++ ':' :: (r.data ++ ':' :: (d.data ++ ':' :: m.data)) := by
  simp [strData_append, List.append_assoc]

theorem count_colon_concat4 (p r d m : String)
    (hp : ':' ∉ p.data) (hr : ':' ∉ r.data) (hd : ':' ∉ d.data) (hm : ':' ∉ m.data) :
    (p ++ ":" ++ r ++ ":" ++ d ++ ":" ++ m).data.count ':' = 3 := by
  rw [concat4_data]
  simp [List.count_append, List.count_cons,
    List.count_eq_zero_of_not_mem hp, List.count_eq_zero_of_not_mem hr,
    List.count_eq_zero_of_not_mem hd, List.count_eq_zero_of_not_mem hm]

theorem pySplit_concat4 (p r d m : String)
    (hp : ':' ∉ p.data) (hr : ':' ∉ r.data) (hd : ':' ∉ d.data) (hm : ':' ∉ m.data) :
    pySplit ':' (p ++ ":" ++ r ++ ":" ++ d ++ ":" ++ m) = [p, r, d, m] := by
  unfold pySplit
  rw [concat4_data, splitChar_append _ hp, splitChar_append _ hr, splitChar_append _ hd,
    splitChar_not_mem hm]
  rfl

theorem from_spec_concat (p r d m : String)
    (hp : ':' ∉ p.data) (hr : ':' ∉ r.data) (hd : ':' ∉ d.data) (hm : ':' ∉ m.data) :
    Report.from_spec (p ++ ":" ++ r ++ ":" ++ d ++ ":" ++ m) =
      match Report.parseDims (pySplit ',' d) with
      | Except.error e => Except.error e
      | Except.ok dims =>
        Except.ok
          { resource := r
            dimensions := dims
            metrics := (pySplit ',' m).map Report.parse_metric
            segments := ["segments.date"] } := by
  unfold Report.from_spec
  rw [if_neg (by rw [count_colon_concat4 p r d m hp hr hd hm]; omega),
    pySplit_concat4 p r d m hp hr hd hm]

theorem pyStrip_data (s : String) :
    (pyStrip s).data = List.rdropWhile isPySpace (List.dropWhile isPySpace s.data) := rfl

theorem dropWhile_rdropWhile {α : Type} (p : α → Bool) (l : List α)
    (h : l.dropWhile p = l) : (l.rdropWhile p).dropWhile p = l.rdropWhile p := by
  cases l with
  | nil => simp
  | cons x xs =>
    have hx : ¬(p x = true) := by
      intro hpx
      rw [List.dropWhile_cons, if_pos hpx] at h
      have hle := (List.dropWhile_sublist (l := xs) p).length_le
      rw [h] at hle
      simp at hle
    rcases hpre : List.rdropWhile p (x :: xs) with _ | ⟨y, ys⟩
    · simp
    · have hy : y = x := by
        have hp := List.rdropWhile_prefix p (x :: xs)
        rw [hpre] at hp
        obtain ⟨t, ht⟩ := hp
        simp only [List.cons_append] at ht
        injection ht with h1 h2
      subst hy
      rw [List.dropWhile_cons, if_neg hx]

theorem pyStrip_idem (s : String) : pyStrip (pyStrip s) = pyStrip s := by
  have h2 := dropWhile_rdropWhile isPySpace (List.dropWhile isPySpace s.data)
    (List.dropWhile_idempotent isPySpace s.data)
  show (⟨List.rdropWhile isPySpace (List.dropWhile isPySpace (pyStrip s).data)⟩ : String) = pyStrip s
  rw [pyStrip_data, h2, List.rdropWhile_idempotent]
  rfl

theorem parse_metric_eq (mt : String) :
    Report.parse_metric mt =
      if pyStartsWith (pyStrip mt) "metrics." then pyStrip mt
      else "metrics." ++ pyStrip mt := by
  simp only [Report.parse_metric, pyStrip_idem]

theorem parse_dimension_ok {d : String} (h : dimOk d) :
    Report.parse_dimension d = Except.ok (pyStrip d) := by
  obtain ⟨h1, h2⟩ := h
  simp only [Report.parse_dimension]
  rw [if_neg h1, if_neg (by simp [h2])]

theorem parse_dimension_ok_iff (d : String) :
    (∃ x, Report.parse_dimension d = Except.ok x) ↔ dimOk d := by
  constructor
  · rintro ⟨x, hx⟩
    simp only [Report.parse_dimension] at hx
    by_cases h1 : (pyStrip d).data.count '.' = 0
    · rw [if_pos h1] at hx
      exact absurd hx (by simp)
    · rw [if_neg h1] at hx
      by_cases h2 : pyStartsWith (pyStrip d) "segments." = true
      · rw [if_pos h2] at hx
        exact absurd hx (by simp)
      · exact ⟨h1, by simpa using h2⟩
  · intro h
    exact ⟨_, parse_dimension_ok h⟩

theorem parse_dimension_error {d e : String} (h : Report.parse_dimension d = Except.error e) :
    e = "Invalid dimension format. Expected {resource}.{field}" ∨
    e = "Invalid dimension format. Segments are not allowed in dimensions." := by
  simp only [Report.parse_dimension] at h
  by_cases h1 : (pyStrip d).data.count '.' = 0
  · rw [if_pos h1] at h
    left
    exact (Except.error.injEq .. ▸ h).symm
  · rw [if_neg h1] at h
    by_cases h2 : pyStartsWith (pyStrip d) "segments." = true
    · rw [if_pos h2] at h
      right
      exact (Except.error.injEq .. ▸ h).symm
    · rw [if_neg h2] at h
      exact absurd h (by simp)

theorem parseDims_ok {l : List String} (h : ∀ d ∈ l, dimOk d) :
    Report.parseDims l = Except.ok (l.map pyStrip) := by
  induction l with
  | nil => rfl
  | cons d rest ih =>
    simp only [Report.parseDims]
    rw [parse_dimension_ok (h d (List.mem_cons_self d rest)),
      ih (fun x hx => h x (List.mem_cons_of_mem _ hx))]
    rfl

theorem parseDims_ok_mem {l : List String} {l' : List String}
    (h : Report.parseDims l = Except.ok l') : ∀ d ∈ l, dimOk d := by
  induction l generalizing l' with
  | nil => simp
  | cons d rest ih =>
    intro x hx
    simp only [Report.parseDims] at h
    cases hpd : Report.parse_dimension d with
    | error e => rw [hpd] at h; exact absurd h (by simp)
    | ok v =>
      rw [hpd] at h
      cases hrest : Report.parseDims rest with
      | error e => rw [hrest] at h; exact absurd h (by simp)
      | ok vs =>
        rcases List.mem_cons.mp hx with rfl | hx'
        · exact (parse_dimension_ok_iff x).mp ⟨v, hpd⟩
        · exact ih hrest x hx'

theorem parseDims_error {l : List String} {e : String}
    (h : Report.parseDims l = Except.error e) :
    e = "Invalid dimension format. Expected {resource}.{field}" ∨
    e = "Invalid dimension format. Segments are not allowed in dimensions." := by
  induction l with
  | nil => exact absurd h (by simp [Report.parseDims])
  | cons d rest ih =>
    simp only [Report.parseDims] at h
    cases hpd : Report.parse_dimension d with
    | error e' =>
      rw [hpd] at h
      simp only [Except.error.injEq] at h
      exact h ▸ parse_dimension_error hpd
    | ok v =>
      rw [hpd] at h
      cases hrest : Report.parseDims rest with
      | error e' =>
        rw [hrest] at h
        simp only [Except.error.injEq] at h
        subst h
        exact ih hrest
      | ok vs => rw [hrest] at h; exact absurd h (by simp)

theorem processRows_append (allowed : List String) (a b : List (List (String × PyVal))) :
    processRows allowed (a ++ b) =
      match processRows allowed a with
      | Except.error e => Except.error e
      | Except.ok ra =>
        match processRows allowed b with
        | Except.error e => Except.error e
        | Except.ok rb => Except.ok (ra ++ rb) := by
  induction a with
  | nil =>
    simp only [List.nil_append, processRows]
    cases processRows allowed b <;> rfl
  | cons row rest ih =>
    simp only [List.cons_append, processRows, List.append_eq]
    rw [ih]
    cases processRow allowed row <;> try rfl
    cases processRows allowed rest <;> try rfl
    cases processRows allowed b <;> rfl

theorem processBatches_flatten (allowed : List String)
    (stream : List (List (List (String × PyVal)))) :
    processBatches allowed stream = processRows allowed stream.flatten := by
  induction stream with
  | nil => rfl
  | cons b bs ih =>
    simp only [processBatches, ih, List.flatten_cons]
    rw [processRows_append]

theorem processRows_spec (allowed : List String) (rows : List (List (String × PyVal)))
    (recs : List Record) (h : processRows allowed rows = Except.ok recs) :
    recs.length = rows.length ∧
    ∀ i (h1 : i < rows.length) (h2 : i < recs.length),
      ∃ data, fixSegmentsDate (pyFlatten (rows.get ⟨i, h1⟩)) = Except.ok data ∧
        recs.get ⟨i, h2⟩ = data.filter (fun kv => allowed.contains kv.1) := by
  induction rows generalizing recs with
  | nil =>
    simp only [processRows, Except.ok.injEq] at h
    subst h
    exact ⟨rfl, fun i h1 => absurd h1 (by simp)⟩
  | cons row rest ih =>
    simp only [processRows] at h
    cases hrow : processRow allowed row with
    | error e => rw [hrow] at h; exact absurd h (by simp)
    | ok r =>
      rw [hrow] at h
      cases hrest : processRows allowed rest with
      | error e => rw [hrest] at h; exact absurd h (by simp)
      | ok rs =>
        rw [hrest] at h
        simp only [Except.ok.injEq] at h
        subst h
        obtain ⟨ihlen, ihget⟩ := ih rs hrest
        refine ⟨by simp [ihlen], ?_⟩
        intro i h1 h2
        cases i with
        | zero =>
          simp only [List.get]
          simp only [processRow] at hrow
          cases hfix : fixSegmentsDate (pyFlatten row) with
          | error e => rw [hfix] at hrow; exact absurd hrow (by simp)
          | ok data =>
            rw [hfix] at hrow
            simp only [Except.ok.injEq] at hrow
            exact ⟨data, rfl, hrow.symm⟩
        | succ j =>
          simp only [List.get]
          exact ihget j (by simpa using h1) (by simpa using h2)

/-- C2: for every valid spec string of the form
custom:{resource}:{d1,d2,...}:{m1,m2,...} (exactly 3 colons, every trimmed
dimension containing a dot and not starting with segments.), from_spec
returns a Report whose resource is the second field, whose dimensions are
the comma-split, trimmed dimension entries in order, whose metrics are the
comma-split, trimmed metric entries each carrying the metrics. namespace
exactly once (added only when absent), and whose segments are exactly
["segments.date"]. -/
theorem from_spec_valid (resource dims mets : String)
    (hr : ':' ∉ resource.data) (hd : ':' ∉ dims.data) (hm : ':' ∉ mets.data)
    (hdim : ∀ x ∈ pySplit ',' dims,
      (pyStrip x).data.count '.' ≠ 0 ∧ pyStartsWith (pyStrip x) "segments." = false) :
    Report.from_spec ("custom" ++ ":" ++ resource ++ ":" ++ dims ++ ":" ++ mets) =
      Except.ok
        { resource := resource
          dimensions := (pySplit ',' dims).map pyStrip
          metrics := (pySplit ',' mets).map (fun mt =>
            if pyStartsWith (pyStrip mt) "metrics." then pyStrip mt
            else "metrics." ++ pyStrip mt)
          segments := ["segments.date"] } := by
  rw [from_spec_concat "custom" resource dims mets (by decide) hr hd hm,
    parseDims_ok hdim]
  have hmap : List.map Report.parse_metric (pySplit ',' mets) =
      List.map (fun mt =>
        if pyStartsWith (pyStrip mt) "metrics." then pyStrip mt
        else "metrics." ++ pyStrip mt) (pySplit ',' mets) :=
    List.map_congr_left (fun mt _ => parse_metric_eq mt)
  simp only [hmap]

/-- C2 witness: the documented example spec parses to the expected
Report. -/
theorem from_spec_valid_witness :
    Report.from_spec
        ("custom" ++ ":" ++ "ad_group_ad_asset_view" ++ ":" ++ "ad_group.id, campaign.id"
          ++ ":" ++ "clicks,metrics.conversions") =
      Except.ok
        { resource := "ad_group_ad_asset_view"
          dimensions := ["ad_group.id", "campaign.id"]
          metrics := ["metrics.clicks", "metrics.conversions"]
          segments := ["segments.date"] } :=
  from_spec_valid "ad_group_ad_asset_view" "ad_group.id, campaign.id"
    "clicks,metrics.conversions" (by decide) (by decide) (by decide) (by decide)

/-- C9: from_spec never examines the leading colon-delimited token: for
every prefix p (not only the literal custom), parsing
p:{resource}:{dims}:{metrics} with exactly 3 colons in total yields the
same result as parsing custom:{resource}:{dims}:{metrics}. -/
theorem from_spec_first_token_irrelevant (p resource dims mets : String)
    (hp : ':' ∉ p.data) (hr : ':' ∉ resource.data)
    (hd : ':' ∉ dims.data) (hm : ':' ∉ mets.data) :
    Report.from_spec (p ++ ":" ++ resource ++ ":" ++ dims ++ ":" ++ mets) =
      Report.from_spec ("custom" ++ ":" ++ resource ++ ":" ++ dims ++ ":" ++ mets) := by
  rw [from_spec_concat p resource dims mets hp hr hd hm,
    from_spec_concat "custom" resource dims mets (by decide) hr hd hm]

/-- C9 witness: an arbitrary prefix token parses identically to custom. -/
theorem from_spec_first_token_irrelevant_witness :
    Report.from_spec ("weird" ++ ":" ++ "r" ++ ":" ++ "a.b" ++ ":" ++ "m") =
      Report.from_spec ("custom" ++ ":" ++ "r" ++ ":" ++ "a.b" ++ ":" ++ "m") :=
  from_spec_first_token_irrelevant "weird" "r" "a.b" "m"
    (by decide) (by decide) (by decide) (by decide)

/-- C10: a spec string with an empty metrics field does not raise:
from_spec "custom:r:a.b:" returns a Report whose metrics list is exactly
["metrics."] (the empty entry is prefixed rather than rejected), and the
metrics list of any parsed Report is never empty. -/
theorem from_spec_empty_metrics :
    Report.from_spec "custom:r:a.b:" =
      Except.ok
        { resource := "r"
          dimensions := ["a.b"]
          metrics := ["metrics."]
          segments := ["segments.date"] } ∧
    ∀ spec rep, Report.from_spec spec = Except.ok rep → rep.metrics ≠ [] := by
  refine ⟨by rfl, ?_⟩
  intro spec rep h
  unfold Report.from_spec at h
  by_cases hc : spec.data.count ':' ≠ 3
  · rw [if_pos hc] at h
    exact absurd h (by simp)
  · rw [if_neg hc] at h
    rcases hsp : pySplit ':' spec with _ | ⟨a, _ | ⟨b, _ | ⟨c, _ | ⟨d, _ | ⟨e, t⟩⟩⟩⟩⟩ <;>
      rw [hsp] at h
    · exact absurd h (by simp)
    · exact absurd h (by simp)
    · exact absurd h (by simp)
    · exact absurd h (by simp)
    · have h' : (match Report.parseDims (pySplit ',' c) with
          | Except.error e => Except.error e
          | Except.ok dims =>
            Except.ok
              { resource := b
                dimensions := dims
                metrics := (pySplit ',' d).map Report.parse_metric
                segments := ["segments.date"] }) = Except.ok rep := h
      cases hdims : Report.parseDims (pySplit ',' c) with
      | error e' => rw [hdims] at h'; exact absurd h' (by simp)
      | ok dims =>
        rw [hdims] at h'
        simp only [Except.ok.injEq] at h'
        subst h'
        simp only [ne_eq, List.map_eq_nil_iff]
        exact pySplit_ne_nil ',' d
    · exact absurd h (by simp)

/-- C10 witness: the Report parsed from the empty-metrics spec has a
non-empty metrics list. -/
theorem from_spec_empty_metrics_witness :
    ({ resource := "r", dimensions := ["a.b"], metrics := ["metrics."],
       segments := ["segments.date"] } : Report).metrics ≠ [] :=
  from_spec_empty_metrics.2 "custom:r:a.b:" _ from_spec_empty_metrics.1

/-- C3: from_spec raises a ValueError naming the expected format or the
dimension rule violated exactly when the colon count differs from 3 or
some trimmed dimension entry lacks a dot or starts with segments.; every
other input returns a Report without raising. -/
theorem from_spec_error_iff (spec : String) :
    ((∃ rep, Report.from_spec spec = Except.ok rep) ↔
      (spec.data.count ':' = 3 ∧
        ∀ x ∈ pySplit ',' ((pySplit ':' spec).getD 2 ""),
          (pyStrip x).data.count '.' ≠ 0 ∧ pyStartsWith (pyStrip x) "segments." = false)) ∧
    (∀ e, Report.from_spec spec = Except.error e →
      e = "Invalid report specification format. Expected custom:{resource}:{dimensions}:{metrics}" ∨
      e = "Invalid dimension format. Expected {resource}.{field}" ∨
      e = "Invalid dimension format. Segments are not allowed in dimensions.") := by
  by_cases hc : spec.data.count ':' = 3
  · have hlen : (pySplit ':' spec).length = 4 := by
      rw [pySplit_length, hc]
    rcases hsp : pySplit ':' spec with _ | ⟨a, _ | ⟨b, _ | ⟨c, _ | ⟨d, _ | ⟨e0, t⟩⟩⟩⟩⟩ <;>
        rw [hsp] at hlen <;> simp only [List.length_cons, List.length_nil] at hlen
    pick_goal 5
    · have hfs : Report.from_spec spec =
          (match Report.parseDims (pySplit ',' c) with
           | Except.error e => Except.error e
           | Except.ok dims =>
             Except.ok
               { resource := b
                 dimensions := dims
                 metrics := (pySplit ',' d).map Report.parse_metric
                 segments := ["segments.date"] }) := by
        unfold Report.from_spec
        rw [if_neg (by simp [hc]), hsp]
      refine ⟨⟨?_, ?_⟩, ?_⟩
      · rintro ⟨rep, hrep⟩
        rw [hfs] at hrep
        refine ⟨hc, ?_⟩
        cases hdims : Report.parseDims (pySplit ',' c) with
        | error e' => rw [hdims] at hrep; exact absurd hrep (by simp)
        | ok dims => exact parseDims_ok_mem hdims
      · rintro ⟨_, hall⟩
        rw [hfs, parseDims_ok (l := pySplit ',' c) hall]
        exact ⟨_, rfl⟩
      · intro e he
        rw [hfs] at he
        cases hdims : Report.parseDims (pySplit ',' c) with
        | error e' =>
          rw [hdims] at he
          simp only [Except.error.injEq] at he
          subst he
          right
          exact parseDims_error hdims
        | ok dims => rw [hdims] at he; exact absurd he (by simp)
    all_goals omega
  · have hfs : Report.from_spec spec =
        Except.error
          "Invalid report specification format. Expected custom:{resource}:{dimensions}:{metrics}" := by
      unfold Report.from_spec
      rw [if_pos hc]
    refine ⟨⟨?_, ?_⟩, ?_⟩
    · rintro ⟨rep, hrep⟩
      rw [hfs] at hrep
      exact absurd hrep (by simp)
    · rintro ⟨h3, _⟩
      exact absurd h3 hc
    · intro e he
      rw [hfs] at he
      simp only [Except.error.injEq] at he
      subst he
      left
      rfl

/-- C3 witness: a well-formed spec yields a Report, by the characterization
at a concrete input. -/
theorem from_spec_error_iff_witness :
    ∃ rep, Report.from_spec "custom:r:a.b:m" = Except.ok rep :=
  (from_spec_error_iff "custom:r:a.b:m").1.mpr (by decide)

/-- C1: with a non-None report_spec the google_ads source never registers
the extraction unit the spec describes: after the custom spec parses, the
resource is invoked with the unbound local variable report, so the
generator raises UnboundLocalError instead of yielding a unit extracting
the parsed custom Report (the spec marks this as a latent defect of the
source). -/
theorem google_ads_custom_spec_unbound (spec : String) :
    (∃ e, google_ads (some spec) = Except.error e) ∧
    (∀ rep, Report.from_spec spec = Except.ok rep →
      google_ads (some spec) =
        Except.error "UnboundLocalError: local variable 'report' referenced before assignment") := by
  have hshape : google_ads (some spec) =
      (match Report.from_spec spec with
       | Except.error e => Except.error e
       | Except.ok _custom_report =>
         Except.error "UnboundLocalError: local variable 'report' referenced before assignment") :=
    rfl
  constructor
  · rw [hshape]
    cases h : Report.from_spec spec with
    | error e => exact ⟨e, rfl⟩
    | ok rep =>
      exact ⟨"UnboundLocalError: local variable 'report' referenced before assignment", rfl⟩
  · intro rep h
    rw [hshape, h]

/-- C1 witness: a well-formed custom spec still makes google_ads raise
UnboundLocalError. -/
theorem google_ads_custom_spec_unbound_witness :
    google_ads (some "custom:ad_group:ad_group.id:clicks") =
      Except.error "UnboundLocalError: local variable 'report' referenced before assignment" :=
  (google_ads_custom_spec_unbound "custom:ad_group:ad_group.id:clicks").2
    { resource := "ad_group", dimensions := ["ad_group.id"],
      metrics := ["metrics.clicks"], segments := ["segments.date"] } (by rfl)

/-- C6: primary_keys returns the dimensions followed by the segments, in
their original order, each path with every dot replaced by an
underscore. -/
theorem primary_keys_dims_then_segments (r : Report) :
    r.primary_keys = r.dimensions.map dotToUnderscore ++ r.segments.map dotToUnderscore := by
  unfold Report.primary_keys
  exact List.map_append dotToUnderscore r.dimensions r.segments

/-- C7: daily_report builds its query by selecting the comma-joined
dimensions, then metrics, then segments, from the report resource, with a
WHERE clause given by the date predicate over segments.date applied to the
cursor bounds. -/
theorem daily_report_query (report : Report) (date : Cursor)
    (stream : List (List (List (String × PyVal)))) :
    (daily_report report date stream).query =
      "\n        SELECT\n            " ++
        String.intercalate ", " (report.dimensions ++ report.metrics ++ report.segments) ++
      "\n        FROM\n            " ++ report.resource ++
      "\n        WHERE\n            " ++
        date_predicate "segments.date" date.last_value date.end_value ++ "\n    " := rfl

/-- C4: every streamed row is flattened into underscore-joined keys and
the yielded record keeps exactly the key/value pairs whose key belongs to
the declared field set; undeclared keys are dropped silently and exactly
one record is produced per row, in stream order. -/
theorem daily_report_flatten_filter (report : Report) (date : Cursor)
    (stream : List (List (List (String × PyVal)))) (recs : List Record)
    (h : (daily_report report date stream).records = Except.ok recs) :
    recs.length = stream.flatten.length ∧
    ∀ i (h1 : i < stream.flatten.length) (h2 : i < recs.length),
      ∃ data, fixSegmentsDate (pyFlatten (stream.flatten.get ⟨i, h1⟩)) = Except.ok data ∧
        recs.get ⟨i, h2⟩ = data.filter (fun kv => (allowed_keys report).contains kv.1) := by
  have hrecords : processBatches (allowed_keys report) stream = Except.ok recs := h
  rw [processBatches_flatten] at hrecords
  obtain ⟨hlen, hget⟩ := processRows_spec (allowed_keys report) stream.flatten recs hrecords
  exact ⟨hlen, fun i h1 h2 => hget i h1 h2⟩

/-- C4 witness: the documented flattening example, with an undeclared key
dropped. -/
theorem daily_report_flatten_filter_witness :
    ∃ data,
      fixSegmentsDate
          (pyFlatten [("ad_group", PyVal.vobj [("id", PyVal.vint 5)]), ("extra", PyVal.vint 9)]) =
        Except.ok data ∧
      [("ad_group_id", PyVal.vint 5)] = data.filter (fun kv =>
        (allowed_keys { resource := "ad_group", dimensions := ["ad_group.id"] }).contains kv.1) :=
  (daily_report_flatten_filter { resource := "ad_group", dimensions := ["ad_group.id"] }
    { last_value := "2024-01-01", end_value := none }
    [[[("ad_group", PyVal.vobj [("id", PyVal.vint 5)]), ("extra", PyVal.vint 9)]]]
    [[("ad_group_id", PyVal.vint 5)]] rfl).2 0 (by decide) (by decide)

/-- C5: whenever the flattened row has a segments_date key, its string
value is parsed as YYYY-MM-DD into a datetime before filtering (so
2024-03-01 yields March 1, 2024); a value that does not match the format
makes the extraction fail instead of passing the string through; rows
without the key are yielded with no such conversion. -/
theorem daily_report_segments_date (allowed : List String) (row : List (String × PyVal)) :
    (lookupKey "segments_date" (pyFlatten row) = none →
      processRow allowed row =
        Except.ok ((pyFlatten row).filter (fun kv => allowed.contains kv.1))) ∧
    (∀ s, lookupKey "segments_date" (pyFlatten row) = some (PyVal.vstr s) →
      (∀ y m d, strptimeYMD s = some (y, m, d) →
        processRow allowed row =
          Except.ok ((setKey "segments_date" (PyVal.vdate y m d) (pyFlatten row)).filter
            (fun kv => allowed.contains kv.1))) ∧
      (strptimeYMD s = none → ∃ e, processRow allowed row = Except.error e)) ∧
    strptimeYMD "2024-03-01" = some (2024, 3, 1) ∧
    strptimeYMD "03/01/2024" = none := by
  refine ⟨?_, ?_, by decide, by decide⟩
  · intro hnone
    unfold processRow fixSegmentsDate
    rw [hnone]
  · intro s hs
    constructor
    · intro y m d hymd
      have hfix : fixSegmentsDate (pyFlatten row) =
          Except.ok (setKey "segments_date" (PyVal.vdate y m d) (pyFlatten row)) := by
        unfold fixSegmentsDate
        rw [hs]
        show (match strptimeYMD s with
              | some ymd =>
                Except.ok
                  (setKey "segments_date" (PyVal.vdate ymd.1 ymd.2.1 ymd.2.2) (pyFlatten row))
              | none =>
                Except.error "ValueError: time data does not match format %Y-%m-%d") = _
        rw [hymd]
      unfold processRow
      rw [hfix]
    · intro hnone
      have hfix : fixSegmentsDate (pyFlatten row) =
          Except.error "ValueError: time data does not match format %Y-%m-%d" := by
        unfold fixSegmentsDate
        rw [hs]
        show (match strptimeYMD s with
              | some ymd =>
                Except.ok
                  (setKey "segments_date" (PyVal.vdate ymd.1 ymd.2.1 ymd.2.2) (pyFlatten row))
              | none =>
                Except.error "ValueError: time data does not match format %Y-%m-%d") = _
        rw [hnone]
      refine ⟨"ValueError: time data does not match format %Y-%m-%d", ?_⟩
      unfold processRow
      rw [hfix]

/-- C5 witness: a nested segments.date value is parsed into the date for
March 1, 2024. -/
theorem daily_report_segments_date_witness :
    processRow ["segments_date"]
        [("segments", PyVal.vobj [("date", PyVal.vstr "2024-03-01")])] =
      Except.ok [("segments_date", PyVal.vdate 2024 3 1)] :=
  ((daily_report_segments_date ["segments_date"]
      [("segments", PyVal.vobj [("date", PyVal.vstr "2024-03-01")])]).2.1
    "2024-03-01" rfl).1 2024 3 1 rfl

/-- C8: the built-in catalog entry click_report_daily has resource
click_view, the four documented dimensions, the single clicks metric and
no segments; google_ads registers it under the underscored primary key;
and a streamed batch with one matching row yields exactly one filtered
record carrying the four underscored dimension keys plus the clicks
metric (as the metrics_clicks field). -/
theorem click_report_daily_end_to_end :
    BUILTIN_REPORTS.lookup "click_report_daily" =
      some
        { resource := "click_view"
          dimensions := ["click_view.gclid", "customer.id", "ad_group.id", "campaign.id"]
          metrics := ["metrics.clicks"]
          segments := [] } ∧
    (∃ regs, google_ads none = Except.ok regs ∧
      regs.find? (fun reg => reg.name == "click_report_daily") =
        some
          { name := "click_report_daily"
            write_disposition := "merge"
            primary_key := ["click_view_gclid", "customer_id", "ad_group_id", "campaign_id"]
            report :=
              { resource := "click_view"
                dimensions := ["click_view.gclid", "customer.id", "ad_group.id", "campaign.id"]
                metrics := ["metrics.clicks"]
                segments := [] } }) ∧
    (daily_report
        { resource := "click_view"
          dimensions := ["click_view.gclid", "customer.id", "ad_group.id", "campaign.id"]
          metrics := ["metrics.clicks"]
          segments := [] }
        { last_value := "2024-01-01", end_value := some "2024-02-01" }
        [[[("click_view", PyVal.vobj [("gclid", PyVal.vstr "g1")]),
           ("customer", PyVal.vobj [("id", PyVal.vint 11)]),
           ("ad_group", PyVal.vobj [("id", PyVal.vint 22)]),
           ("campaign", PyVal.vobj [("id", PyVal.vint 33)]),
           ("metrics", PyVal.vobj [("clicks", PyVal.vint 7)]),
           ("extra", PyVal.vstr "undeclared")]]]).records =
      Except.ok
        [[("click_view_gclid", PyVal.vstr "g1"),
          ("customer_id", PyVal.vint 11),
          ("ad_group_id", PyVal.vint 22),
          ("campaign_id", PyVal.vint 33),
          ("metrics_clicks", PyVal.vint 7)]] :=
  ⟨rfl, ⟨_, rfl, rfl⟩, rfl⟩
